import Mathlib

/-
Shallow embedding of the conversation/config/transport core of the
chat-gipity CLI (src/chatgpt.rs, with the transcript-ingestion loop of
src/main.rs). Wire parsing is modelled on a JSON abstract-syntax tree:
the serde_json text layer is the library's, while the schema acceptance
rules (required fields, field types, list decoding) are reproduced here.
Configuration files are likewise modelled as parsed TOML tables, with
the config crate's priority merge and lenient value conversions
reproduced explicitly. Process-terminating panics in the source are
modelled as Except.error values.
-/

namespace Cgip

/-- JSON values as produced by the serde_json parser. Numbers are modelled
as integers, which covers every numeric field of the wire schema (the u64
counters); the schemas of chatgpt.rs contain no floating point fields. -/
inductive Json where
  | null
  | bool (b : Bool)
  | num (n : Int)
  | str (s : String)
  | arr (elems : List Json)
  | obj (fields : List (String × Json))

/-- Model of Rust's str::trim: the characters of the string with
whitespace removed from both ends. -/
def rustTrim (s : String) : String :=
  ⟨((s.data.dropWhile Char.isWhitespace).reverse.dropWhile Char.isWhitespace).reverse⟩

/-- Model of Rust's str::to_lowercase on the role strings the program
compares: every character lowercased. -/
def asciiLower (s : String) : String :=
  ⟨s.data.map Char.toLower⟩

/-- Field lookup in a JSON object, as serde does when decoding a struct;
on a non-object the field is simply not found. -/
def Json.getField : Json → String → Option Json
  | .obj fields, key => (fields.find? (fun kv => kv.1 == key)).map (fun kv => kv.2)
  | _, _ => none

/-- Decoding of a required String field (serde derive: missing field or
wrong type is an error). -/
def reqString (j : Json) (key : String) : Except String String :=
  match j.getField key with
  | some (.str s) => .ok s
  | some _ => .error ("invalid type for field " ++ key)
  | none => .error ("missing field " ++ key)

/-- Decoding of a required u64 field: a JSON integer in the u64 range. -/
def reqU64 (j : Json) (key : String) : Except String Nat :=
  match j.getField key with
  | some (.num n) =>
    if 0 ≤ n ∧ n < 2 ^ 64 then .ok n.toNat
    else .error ("invalid value for field " ++ key)
  | some _ => .error ("invalid type for field " ++ key)
  | none => .error ("missing field " ++ key)

/-- Message of chatgpt.rs lines 38-42: a role string and a content string. -/
structure Message where
  role : String
  content : String
deriving DecidableEq

/-- Usage of chatgpt.rs lines 70-75. -/
structure Usage where
  prompt_tokens : Nat
  completion_tokens : Nat
  total_tokens : Nat
deriving DecidableEq

/-- Choice of chatgpt.rs lines 77-82. -/
structure Choice where
  message : Message
  finish_reason : String
  index : Nat
deriving DecidableEq

/-- ChatResponse of chatgpt.rs lines 50-58, the success schema. -/
structure ChatResponse where
  id : String
  object : String
  created : Nat
  model : String
  usage : Usage
  choices : List Choice
deriving DecidableEq

/-- ErrorDetail of chatgpt.rs lines 65-68. -/
structure ErrorDetail where
  message : String
deriving DecidableEq

/-- ErrorResponse of chatgpt.rs lines 60-63, the error schema. -/
structure ErrorResponse where
  error : ErrorDetail
deriving DecidableEq

/-- Decoding of a Message value (role and content strings, both required). -/
def decodeMessage (j : Json) : Except String Message :=
  match reqString j "role" with
  | .error e => .error e
  | .ok role =>
    match reqString j "content" with
    | .error e => .error e
    | .ok content => .ok ⟨role, content⟩

/-- Decoding of a Usage value (three required u64 counters). -/
def decodeUsage (j : Json) : Except String Usage :=
  match reqU64 j "prompt_tokens" with
  | .error e => .error e
  | .ok p =>
    match reqU64 j "completion_tokens" with
    | .error e => .error e
    | .ok c =>
      match reqU64 j "total_tokens" with
      | .error e => .error e
      | .ok t => .ok ⟨p, c, t⟩

/-- Decoding of a Choice value (message struct, finish_reason, index). -/
def decodeChoice (j : Json) : Except String Choice :=
  match j.getField "message" with
  | none => .error "missing field message"
  | some m =>
    match decodeMessage m with
    | .error e => .error e
    | .ok message =>
      match reqString j "finish_reason" with
      | .error e => .error e
      | .ok finish_reason =>
        match reqU64 j "index" with
        | .error e => .error e
        | .ok index => .ok ⟨message, finish_reason, index⟩

/-- parse_response of chatgpt.rs lines 84-86: the body decoded against the
success schema ChatResponse; any missing or ill-typed required field fails. -/
def parse_response (j : Json) : Except String ChatResponse :=
  match reqString j "id" with
  | .error e => .error e
  | .ok id =>
    match reqString j "object" with
    | .error e => .error e
    | .ok object =>
      match reqU64 j "created" with
      | .error e => .error e
      | .ok created =>
        match reqString j "model" with
        | .error e => .error e
        | .ok model =>
          match j.getField "usage" with
          | none => .error "missing field usage"
          | some u =>
            match decodeUsage u with
            | .error e => .error e
            | .ok usage =>
              match j.getField "choices" with
              | none => .error "missing field choices"
              | some (.arr elems) =>
                match elems.mapM decodeChoice with
                | .error e => .error e
                | .ok choices => .ok ⟨id, object, created, model, usage, choices⟩
              | some _ => .error "invalid type for field choices"

/-- parse_error_response of chatgpt.rs lines 88-90: the body decoded
against the error schema ErrorResponse. -/
def parse_error_response (j : Json) : Except String ErrorResponse :=
  match j.getField "error" with
  | none => .error "missing field error"
  | some detail =>
    match reqString detail "message" with
    | .error e => .error e
    | .ok message => .ok ⟨⟨message⟩⟩

/-- Role of chatgpt.rs lines 98-102: the closed role enumeration. -/
inductive Role where
  | System
  | User
  | Assistant
deriving DecidableEq

/-- Display rendering of Role, chatgpt.rs lines 117-125. -/
def Role.toString : Role → String
  | .System => "system"
  | .User => "user"
  | .Assistant => "assistant"

/-- FromStr for Role, chatgpt.rs lines 104-115: exactly the three
lowercase strings parse; everything else is the error Invalid role. -/
def Role.from_str (s : String) : Except String Role :=
  if s = "system" then .ok .System
  else if s = "user" then .ok .User
  else if s = "assistant" then .ok .Assistant
  else .error "Invalid role"

/-- AppConfig of chatgpt.rs lines 13-19. -/
structure AppConfig where
  model : String
  show_progress : Bool
  show_context : Bool
  markdown : Bool
deriving DecidableEq

/-- Compiled-in defaults, chatgpt.rs lines 21-30. -/
def AppConfig.default : AppConfig :=
  { model := "gpt-4", show_progress := false, show_context := false, markdown := false }

/-- TOML values as parsed from a configuration file (the value kinds the
config crate distinguishes that a TOML file can contain). -/
inductive TomlValue where
  | str (s : String)
  | bool (b : Bool)
  | int (n : Int)
  | array (elems : List TomlValue)
  | table (fields : List (String × TomlValue))

/-- A parsed TOML configuration file: a top-level table. -/
abbrev Toml := List (String × TomlValue)

/-- Key lookup in a parsed TOML table. -/
def lookupToml (t : Toml) (key : String) : Option TomlValue :=
  (t.find? (fun kv => kv.1 == key)).map (fun kv => kv.2)

/-- Serialization of an AppConfig to TOML, as toml::to_string renders the
struct (chatgpt.rs lines 132 and 189): all four fields, in field order. -/
def appConfigToToml (c : AppConfig) : Toml :=
  [("model", TomlValue.str c.model),
   ("show_progress", TomlValue.bool c.show_progress),
   ("show_context", TomlValue.bool c.show_context),
   ("markdown", TomlValue.bool c.markdown)]

/-- Lenient conversion of a merged value into a string, as the config
crate performs when deserializing a String field: strings pass through,
booleans and integers are stringified, aggregates fail. -/
def intoString : TomlValue → Except String String
  | .str s => .ok s
  | .bool b => .ok (if b then "true" else "false")
  | .int n => .ok (ToString.toString n)
  | .array _ => .error "invalid type"
  | .table _ => .error "invalid type"

/-- Lenient conversion of a merged value into a boolean, as the config
crate performs when deserializing a bool field: booleans pass through,
integers compare against zero, a closed set of strings is recognised
case-insensitively, everything else fails. -/
def intoBool : TomlValue → Except String Bool
  | .bool b => .ok b
  | .int n => .ok (decide (n ≠ 0))
  | .str s =>
    if asciiLower s = "1" ∨ asciiLower s = "true" ∨ asciiLower s = "on" ∨ asciiLower s = "yes" then
      .ok true
    else if asciiLower s = "0" ∨ asciiLower s = "false" ∨ asciiLower s = "off" ∨ asciiLower s = "no" then
      .ok false
    else .error "invalid type for field show_progress"
  | .array _ => .error "invalid type for field show_progress"
  | .table _ => .error "invalid type for field show_progress"

/-- Priority merge of the config crate: the file's value for a key when
present, the compiled-in default otherwise. -/
def mergedValue (t : Toml) (key : String) (dflt : TomlValue) : TomlValue :=
  match lookupToml t key with
  | some v => v
  | none => dflt

/-- ensure_config_file of chatgpt.rs lines 127-138, on the content of the
canonical config file (modelled as Option Toml, none when no file exists):
writes the serialized defaults when no file exists, otherwise leaves the
existing file untouched. Directory creation always succeeds in the model. -/
def ensure_config_file (file : Option Toml) : Option Toml :=
  match file with
  | none => some (appConfigToToml AppConfig.default)
  | some contents => some contents

/-- Merge and deserialization step of load_config, chatgpt.rs lines
148-162: a config built from the defaults source overlaid by the file
source (priority merge per key), then an AppConfig deserialized from the
merged table with the config crate's lenient conversions; a failed
conversion fails the deserialization, a panic modelled as an error. -/
def load_config_merged (t : Toml) : Except String AppConfig :=
  match intoString (mergedValue t "model" (TomlValue.str AppConfig.default.model)) with
    | .error e => .error e
    | .ok model =>
      match intoBool (mergedValue t "show_progress"
          (TomlValue.bool AppConfig.default.show_progress)) with
      | .error e => .error e
      | .ok show_progress =>
        match intoBool (mergedValue t "show_context"
            (TomlValue.bool AppConfig.default.show_context)) with
        | .error e => .error e
        | .ok show_context =>
          match intoBool (mergedValue t "markdown"
              (TomlValue.bool AppConfig.default.markdown)) with
          | .error e => .error e
          | .ok markdown => .ok ⟨model, show_progress, show_context, markdown⟩

/-- load_config of chatgpt.rs lines 147-163 (see load_config_merged for
the merge and deserialization of an existing file): a missing file makes
the required file source fail the builder, a panic modelled as an error. -/
def load_config (file : Option Toml) : Except String AppConfig :=
  match file with
  | none => .error "configuration file not found"
  | some t => load_config_merged t

/-- Strict boolean parsing of Rust's str::parse for bool, used by
set_config_value: exactly the strings true and false. -/
def parseRustBool (s : String) : Except String Bool :=
  if s = "true" then .ok true
  else if s = "false" then .ok false
  else .error "provided string was not true or false"

/-- Key dispatch of set_config_value, chatgpt.rs lines 177-187: the model
key stores the raw value, the three boolean keys parse it strictly (a bad
token panics, modelled as an error), and an unknown key prints a warning
and leaves the loaded config unchanged. -/
def updateConfig (config : AppConfig) (key value : String) : Except String AppConfig :=
  match key with
  | "model" => .ok { config with model := value }
  | "show_progress" =>
    match parseRustBool value with
    | .error e => .error e
    | .ok b => .ok { config with show_progress := b }
  | "show_context" =>
    match parseRustBool value with
    | .error e => .error e
    | .ok b => .ok { config with show_context := b }
  | "markdown" =>
    match parseRustBool value with
    | .error e => .error e
    | .ok b => .ok { config with markdown := b }
  | _ => .ok config

/-- GptClient of chatgpt.rs lines 92-96: the in-memory config and the
ordered transcript. The config directory is represented by the Option Toml
file state passed explicitly to the filesystem-touching operations. -/
structure GptClient where
  config : AppConfig
  messages : List Message
deriving DecidableEq

/-- System prompt of chatgpt.rs lines 215-224: the raw format string with
the host platform name substituted, then whitespace-trimmed. -/
def system_prompt (os : String) : String :=
  rustTrim ("\n            You are a helpul command line assistant running in a terminal on "
    ++ os
    ++ ", users can\n            pass you the standard output from their command line and you will try and \n            help them debug their issues or answer questions. Since you are a command line tool,\n            you write to standard out. So it is possible for your output to be directly executed\n            in the shell if your output is piped to it.\n        ")

/-- The System turn seeded at construction, chatgpt.rs lines 229-232: the
lowercased rendering of Role System with the trimmed system prompt. -/
def system_message (os : String) : Message :=
  ⟨asciiLower Role.System.toString, system_prompt os⟩

/-- GptClient::new of chatgpt.rs lines 205-234: ensures the config file,
loads the merged config (a failed load panics, modelled as an error), and
seeds the transcript with exactly one System turn. -/
def GptClient.new (os : String) (file : Option Toml) : Except String GptClient :=
  match load_config (ensure_config_file file) with
  | .error e => .error e
  | .ok config => .ok ⟨config, [system_message os]⟩

/-- add_message of chatgpt.rs lines 236-242: appends one turn whose role
is the rendering of the given Role and whose content is trimmed. -/
def GptClient.add_message (client : GptClient) (role : Role) (text : String) : GptClient :=
  { client with messages := client.messages ++ [⟨role.toString, rustTrim text⟩] }

/-- set_config_value of chatgpt.rs lines 165-193: ensures the config file
(so the directory exists and the load branch is taken), loads the merged
config from disk, dispatches on the key, then serializes the whole updated
config over the file. The client itself is returned unchanged: the method
never assigns the config field of self. The result pairs the returned
client with the new file contents. -/
def set_config_value (client : GptClient) (file : Option Toml) (key value : String) :
    Except String (GptClient × Toml) :=
  match load_config (ensure_config_file file) with
  | .error e => .error e
  | .ok config =>
    match updateConfig config key value with
    | .error e => .error e
    | .ok config2 => .ok (client, appConfigToToml config2)

/-- to_yaml of chatgpt.rs lines 244-256, at the level of the message list
handed to serde_yaml: the system-filtered (case-insensitively, when
exclude_system is true) or full clone of the transcript. The yaml text is
a faithful, invertible rendering of this list, so the codec claims are
settled on the list. -/
def GptClient.to_yaml_messages (client : GptClient) (exclude_system : Bool) : List Message :=
  if exclude_system then
    client.messages.filter (fun msg => asciiLower msg.role != "system")
  else
    client.messages

/-- A turn whose role string renders system, up to ASCII case, which is
the condition to_yaml filters on. -/
def isSystemTurn (msg : Message) : Bool :=
  asciiLower msg.role == "system"

/-- complete of chatgpt.rs lines 259-323, from the point the response body
text is in hand (line 306): the credential and network stages (lines
260-304) abort before any state change and carry no data into the rest.
The body is decoded against the success schema; on failure the error
schema is attempted and the panic carries the API-reported message when it
parses, the raw parse failure otherwise. On success the first choice is
indexed (a panic when the choices list is empty), the raw content is
returned, and the content is appended as an Assistant turn through
add_message. Panics are modelled as errors. -/
def GptClient.complete (body : Json) (client : GptClient) :
    Except String (String × GptClient) :=
  match parse_response body with
  | .ok response_object =>
    match response_object.choices.head? with
    | some choice =>
      let result := choice.message.content
      .ok (result, client.add_message Role.Assistant result)
    | none => .error "index out of bounds: the len is 0 but the index is 0"
  | .error e =>
    match parse_error_response body with
    | .ok error_response =>
      .error ("Error while parsing response object: " ++ error_response.error.message)
    | .error _ => .error ("Error while parsing response object: " ++ e)

/-- Transcript ingestion of main.rs lines 29-33, at the level of the list
serde_yaml parses from the piped text: each message's role string is
validated through Role from_str (an invalid role fails the whole decode)
and the turn is appended via add_message, which re-renders the role and
trims the content. The result is the sequence of turns appended. -/
def decode_messages : List Message → Except String (List Message)
  | [] => .ok []
  | m :: rest =>
    match Role.from_str m.role with
    | .error e => .error e
    | .ok role =>
      match decode_messages rest with
      | .error e => .error e
      | .ok decoded => .ok (⟨role.toString, rustTrim m.content⟩ :: decoded)

/-- Reachable conversation states of one run: the state constructed by
GptClient new, closed under add_message and under a successful complete. -/
inductive Reachable (os : String) (file : Option Toml) : GptClient → Prop where
  | init (c : GptClient) : GptClient.new os file = .ok c → Reachable os file c
  | step_add (c : GptClient) (role : Role) (text : String) :
      Reachable os file c → Reachable os file (c.add_message role text)
  | step_complete (c : GptClient) (body : Json) (r : String) (c' : GptClient) :
      Reachable os file c → GptClient.complete body c = .ok (r, c') → Reachable os file c'

/-- Simulated success body whose first choice content carries surrounding
whitespace. -/
def wsBody : Json := .obj
  [("id", .str "chatcmpl-1"), ("object", .str "chat.completion"),
   ("created", .num 1), ("model", .str "gpt-4"),
   ("usage", .obj [("prompt_tokens", .num 1), ("completion_tokens", .num 1),
                   ("total_tokens", .num 2)]),
   ("choices", .arr [.obj [("message", .obj [("role", .str "assistant"),
                                             ("content", .str " hi ")]),
                           ("finish_reason", .str "stop"), ("index", .num 0)]])]

/-- Simulated success body from the specification's test property, with
first choice content Try restarting the service. -/
def okBody : Json := .obj
  [("id", .str "chatcmpl-2"), ("object", .str "chat.completion"),
   ("created", .num 2), ("model", .str "gpt-4"),
   ("usage", .obj [("prompt_tokens", .num 1), ("completion_tokens", .num 8),
                   ("total_tokens", .num 9)]),
   ("choices", .arr [.obj [("message", .obj [("role", .str "assistant"),
                                             ("content", .str "Try restarting the service.")]),
                           ("finish_reason", .str "stop"), ("index", .num 0)]])]

/-- Simulated error body from the specification's test property. -/
def rateLimitBody : Json := .obj
  [("error", .obj [("message", .str "rate limit exceeded")])]

/-- Simulated success body whose choices list is empty. -/
def emptyChoicesBody : Json := .obj
  [("id", .str "chatcmpl-0"), ("object", .str "chat.completion"),
   ("created", .num 1), ("model", .str "gpt-4"),
   ("usage", .obj [("prompt_tokens", .num 1), ("completion_tokens", .num 0),
                   ("total_tokens", .num 1)]),
   ("choices", .arr [])]

/-- Equation for complete when the body decodes against the success schema:
the result is decided by the head of the choices list. -/
theorem complete_parse_ok {body : Json} {resp : ChatResponse} (client : GptClient)
    (h : parse_response body = .ok resp) :
    GptClient.complete body client
      = match resp.choices.head? with
        | some choice =>
          .ok (choice.message.content, client.add_message Role.Assistant choice.message.content)
        | none => .error "index out of bounds: the len is 0 but the index is 0" := by
  unfold GptClient.complete
  rw [h]

/-- Equation for complete when the body fails the success schema: the
result is decided by the error-schema parse. -/
theorem complete_parse_error {body : Json} {e : String} (client : GptClient)
    (h : parse_response body = .error e) :
    GptClient.complete body client
      = match parse_error_response body with
        | .ok er => .error ("Error while parsing response object: " ++ er.error.message)
        | .error _ => .error ("Error while parsing response object: " ++ e) := by
  unfold GptClient.complete
  rw [h]

/-- Inversion for a returning complete: the body decoded against the
success schema, the choices list had a head, the returned text is that
first choice content, and the new state is the add_message append. -/
theorem complete_ok_inv {body : Json} {client c' : GptClient} {r : String}
    (h : GptClient.complete body client = .ok (r, c')) :
    ∃ resp choice, parse_response body = .ok resp ∧ resp.choices.head? = some choice
      ∧ r = choice.message.content ∧ c' = client.add_message Role.Assistant r := by
  cases hp : parse_response body with
  | error e =>
    rw [complete_parse_error client hp] at h
    cases hq : parse_error_response body with
    | ok er => rw [hq] at h; simp at h
    | error e2 => rw [hq] at h; simp at h
  | ok resp =>
    rw [complete_parse_ok client hp] at h
    cases hh : resp.choices.head? with
    | none => rw [hh] at h; simp at h
    | some choice =>
      rw [hh] at h
      simp only [Except.ok.injEq, Prod.mk.injEq] at h
      obtain ⟨h1, h2⟩ := h
      subst h1
      subst h2
      exact ⟨resp, choice, rfl, hh, rfl, rfl⟩

/-- A successful complete appends exactly one Assistant turn, carrying the
trimmed returned text, at the end of the transcript. -/
theorem complete_ok_messages {body : Json} {client c' : GptClient} {r : String}
    (h : GptClient.complete body client = .ok (r, c')) :
    c'.messages = client.messages ++ [⟨Role.Assistant.toString, rustTrim r⟩] := by
  obtain ⟨resp, choice, _, _, _, hc⟩ := complete_ok_inv h
  rw [hc]
  rfl

/-- Every reachable state's transcript starts with the construction-time
System turn. -/
theorem reachable_system_head {os : String} {file : Option Toml} {c : GptClient}
    (h : Reachable os file c) :
    ∃ rest, c.messages = system_message os :: rest := by
  induction h with
  | init c hc =>
    unfold GptClient.new at hc
    cases hl : load_config (ensure_config_file file) with
    | error e => rw [hl] at hc; simp at hc
    | ok cfg =>
      rw [hl] at hc
      injection hc with hc'
      subst hc'
      exact ⟨[], rfl⟩
  | step_add c role text _ ih =>
    obtain ⟨rest, hr⟩ := ih
    exact ⟨rest ++ [⟨role.toString, rustTrim text⟩],
      by simp [GptClient.add_message, hr]⟩
  | step_complete c body r c' _ hcomp ih =>
    obtain ⟨rest, hr⟩ := ih
    exact ⟨rest ++ [⟨Role.Assistant.toString, rustTrim r⟩],
      by rw [complete_ok_messages hcomp, hr]; simp⟩

/-- A role that parsed renders back to the exact string it was parsed
from. -/
theorem from_str_ok_toString {s : String} {r : Role} (h : Role.from_str s = .ok r) :
    r.toString = s := by
  unfold Role.from_str at h
  split_ifs at h with h1 h2 h3
  · injection h with h'; rw [← h', h1]; rfl
  · injection h with h'; rw [← h', h2]; rfl
  · injection h with h'; rw [← h', h3]; rfl

/-- Ingesting a list whose roles all parse and whose contents are already
trimmed reproduces the list itself. -/
theorem decode_messages_id :
    ∀ msgs : List Message,
      (∀ m ∈ msgs, (Role.from_str m.role).isOk = true ∧ rustTrim m.content = m.content) →
      decode_messages msgs = .ok msgs := by
  intro msgs h
  induction msgs with
  | nil => rfl
  | cons m rest ih =>
    have hm := h m (List.mem_cons_self m rest)
    have hrest := fun x hx => h x (List.mem_cons_of_mem m hx)
    obtain ⟨hok, htrim⟩ := hm
    cases hr : Role.from_str m.role with
    | error e => rw [hr] at hok; simp [Except.isOk, Except.toBool] at hok
    | ok role =>
      unfold decode_messages
      rw [hr, ih hrest]
      show Except.ok (⟨role.toString, rustTrim m.content⟩ :: rest) = Except.ok (m :: rest)
      rw [from_str_ok_toString hr, htrim]

/-- Loading back a file that is the full serialization of a config yields
exactly that config. -/
theorem load_config_appConfigToToml (c : AppConfig) :
    load_config (some (appConfigToToml c)) = .ok c := rfl

/-- C1 as stated is false: complete returns the raw first-choice content
but appends the whitespace-trimmed content, so for the simulated success
body whose first choice content is the string space-hi-space, the appended
Assistant turn does not carry the returned content. -/
theorem complete_untrimmed_append_counterexample :
    GptClient.complete wsBody ⟨AppConfig.default, []⟩
      = .ok (" hi ", ⟨AppConfig.default, [⟨"assistant", "hi"⟩]⟩)
    ∧ (" hi " : String) ≠ "hi" :=
  ⟨rfl, by decide⟩

/-- C1 amended: for every body that decodes against the success schema
with a non-empty choices list, complete returns the raw content of the
first choice's message, appends exactly one Assistant turn carrying the
trimmed content, and the turn count grows by exactly one; the remaining
choices do not influence the result. -/
theorem complete_success_spec :
    ∀ (body : Json) (client : GptClient) (resp : ChatResponse) (choice : Choice),
      parse_response body = .ok resp →
      resp.choices.head? = some choice →
      GptClient.complete body client
        = .ok (choice.message.content,
            client.add_message Role.Assistant choice.message.content)
      ∧ (client.add_message Role.Assistant choice.message.content).messages
          = client.messages ++ [⟨"assistant", rustTrim choice.message.content⟩]
      ∧ (client.add_message Role.Assistant choice.message.content).messages.length
          = client.messages.length + 1 := by
  intro body client resp choice hp hh
  refine ⟨?_, rfl, by simp [GptClient.add_message]⟩
  rw [complete_parse_ok client hp, hh]

/-- C1 amended at the specification's simulated success response: the
exact string is returned and one Assistant turn is appended. -/
theorem complete_success_spec_witness :
    GptClient.complete okBody ⟨AppConfig.default, []⟩
      = .ok ("Try restarting the service.",
          GptClient.add_message ⟨AppConfig.default, []⟩ Role.Assistant
            "Try restarting the service.") :=
  (complete_success_spec okBody ⟨AppConfig.default, []⟩
    ⟨"chatcmpl-2", "chat.completion", 2, "gpt-4", ⟨1, 8, 9⟩,
      [⟨⟨"assistant", "Try restarting the service."⟩, "stop", 0⟩]⟩
    ⟨⟨"assistant", "Try restarting the service."⟩, "stop", 0⟩ rfl rfl).1

/-- C2: when the body fails the success schema, complete aborts carrying
the API-reported message if the error schema parses and the raw parse
failure otherwise, and never returns a success value, so the conversation
state is left unchanged. -/
theorem complete_error_spec :
    ∀ (body : Json) (client : GptClient) (e : String),
      parse_response body = .error e →
      (∀ er : ErrorResponse, parse_error_response body = .ok er →
        GptClient.complete body client
          = .error ("Error while parsing response object: " ++ er.error.message))
      ∧ (∀ e2 : String, parse_error_response body = .error e2 →
        GptClient.complete body client
          = .error ("Error while parsing response object: " ++ e))
      ∧ ∀ (r : String) (c' : GptClient), GptClient.complete body client ≠ .ok (r, c') := by
  intro body client e hp
  refine ⟨fun er her => ?_, fun e2 he2 => ?_, fun r c' hok => ?_⟩
  · rw [complete_parse_error client hp, her]
  · rw [complete_parse_error client hp, he2]
  · rw [complete_parse_error client hp] at hok
    cases hq : parse_error_response body with
    | ok er => rw [hq] at hok; simp at hok
    | error e2 => rw [hq] at hok; simp at hok

/-- C2 at the specification's simulated error response: the diagnostic
carries the API-reported message rate limit exceeded. -/
theorem complete_error_spec_witness :
    GptClient.complete rateLimitBody ⟨AppConfig.default, []⟩
      = .error ("Error while parsing response object: " ++ "rate limit exceeded") :=
  (complete_error_spec rateLimitBody ⟨AppConfig.default, []⟩ "missing field id" rfl).1
    ⟨⟨"rate limit exceeded"⟩⟩ rfl

/-- C3 as stated is false: a parseable file whose show_progress field
holds the string banana makes the whole load fail, instead of that field
taking its default value with the load still succeeding. -/
theorem load_config_wrong_type_counterexample :
    load_config (some [("show_progress", TomlValue.str "banana")])
      = .error "invalid type for field show_progress" := rfl

/-- The merged value of an absent key is the default. -/
theorem mergedValue_none {t : Toml} {key : String} {dflt : TomlValue}
    (h : lookupToml t key = none) : mergedValue t key dflt = dflt := by
  unfold mergedValue
  rw [h]

/-- The merged value of a present key is the file's value. -/
theorem mergedValue_some {t : Toml} {key : String} {dflt v : TomlValue}
    (h : lookupToml t key = some v) : mergedValue t key dflt = v := by
  unfold mergedValue
  rw [h]

/-- A four-fold boolean conjunction is false only through one false
conjunct. -/
theorem band4_eq_false {a b c d : Bool} (h : (a && b && c && d) = false) :
    a = false ∨ b = false ∨ c = false ∨ d = false := by
  cases a <;> cases b <;> cases c <;> cases d <;> simp_all

/-- The merged deserialization succeeds exactly when all four merged
field values convert. -/
theorem load_config_merged_isOk (t : Toml) :
    (load_config_merged t).isOk
      = ((intoString (mergedValue t "model" (TomlValue.str AppConfig.default.model))).isOk
        && (intoBool (mergedValue t "show_progress"
              (TomlValue.bool AppConfig.default.show_progress))).isOk
        && (intoBool (mergedValue t "show_context"
              (TomlValue.bool AppConfig.default.show_context))).isOk
        && (intoBool (mergedValue t "markdown"
              (TomlValue.bool AppConfig.default.markdown))).isOk) := by
  unfold load_config_merged
  cases intoString (mergedValue t "model" (TomlValue.str AppConfig.default.model)) <;>
    cases intoBool (mergedValue t "show_progress"
        (TomlValue.bool AppConfig.default.show_progress)) <;>
      cases intoBool (mergedValue t "show_context"
          (TomlValue.bool AppConfig.default.show_context)) <;>
        cases intoBool (mergedValue t "markdown"
            (TomlValue.bool AppConfig.default.markdown)) <;> rfl

/-- A successful merged deserialization carries exactly the conversions
of the four merged field values. -/
theorem load_config_merged_fields {t : Toml} {c : AppConfig}
    (h : load_config_merged t = .ok c) :
    intoString (mergedValue t "model" (TomlValue.str AppConfig.default.model)) = .ok c.model
    ∧ intoBool (mergedValue t "show_progress"
        (TomlValue.bool AppConfig.default.show_progress)) = .ok c.show_progress
    ∧ intoBool (mergedValue t "show_context"
        (TomlValue.bool AppConfig.default.show_context)) = .ok c.show_context
    ∧ intoBool (mergedValue t "markdown"
        (TomlValue.bool AppConfig.default.markdown)) = .ok c.markdown := by
  unfold load_config_merged at h
  cases h1 : intoString (mergedValue t "model" (TomlValue.str AppConfig.default.model)) with
  | error e => rw [h1] at h; simp at h
  | ok m =>
    rw [h1] at h
    cases h2 : intoBool (mergedValue t "show_progress"
        (TomlValue.bool AppConfig.default.show_progress)) with
    | error e => rw [h2] at h; simp at h
    | ok p =>
      rw [h2] at h
      cases h3 : intoBool (mergedValue t "show_context"
          (TomlValue.bool AppConfig.default.show_context)) with
      | error e => rw [h3] at h; simp at h
      | ok q =>
        rw [h3] at h
        cases h4 : intoBool (mergedValue t "markdown"
            (TomlValue.bool AppConfig.default.markdown)) with
        | error e => rw [h4] at h; simp at h
        | ok k =>
          rw [h4] at h
          injection h with hc
          subst hc
          exact ⟨rfl, rfl, rfl, rfl⟩

/-- C3 amended: on an existing file, load merges the file over the
compiled-in defaults field by field. The load fails exactly when some
field present in the file holds a value the config library cannot
leniently convert to the field's type, so absent fields never cause a
failure; and in every successful load an absent field takes its default
value while a present field takes the lenient conversion of the file's
value, never its default. -/
theorem load_config_merge_spec :
    ∀ t : Toml,
      ((load_config (some t)).isOk = false ↔
        ((∃ v, lookupToml t "model" = some v ∧ (intoString v).isOk = false)
          ∨ (∃ v, lookupToml t "show_progress" = some v ∧ (intoBool v).isOk = false)
          ∨ (∃ v, lookupToml t "show_context" = some v ∧ (intoBool v).isOk = false)
          ∨ (∃ v, lookupToml t "markdown" = some v ∧ (intoBool v).isOk = false)))
      ∧ ∀ c : AppConfig, load_config (some t) = .ok c →
          ((lookupToml t "model" = none → c.model = "gpt-4")
            ∧ ∀ v, lookupToml t "model" = some v → intoString v = .ok c.model)
          ∧ ((lookupToml t "show_progress" = none → c.show_progress = false)
            ∧ ∀ v, lookupToml t "show_progress" = some v → intoBool v = .ok c.show_progress)
          ∧ ((lookupToml t "show_context" = none → c.show_context = false)
            ∧ ∀ v, lookupToml t "show_context" = some v → intoBool v = .ok c.show_context)
          ∧ ((lookupToml t "markdown" = none → c.markdown = false)
            ∧ ∀ v, lookupToml t "markdown" = some v → intoBool v = .ok c.markdown) := by
  intro t
  constructor
  · constructor
    · intro hfail
      have hf2 : (load_config_merged t).isOk = false := hfail
      rw [load_config_merged_isOk t] at hf2
      rcases band4_eq_false hf2 with hA | hB | hC | hD
      · left
        cases hv : lookupToml t "model" with
        | none =>
          rw [mergedValue_none hv] at hA
          simp [intoString, AppConfig.default, Except.isOk, Except.toBool] at hA
        | some v =>
          rw [mergedValue_some hv] at hA
          exact ⟨v, rfl, hA⟩
      · right; left
        cases hv : lookupToml t "show_progress" with
        | none =>
          rw [mergedValue_none hv] at hB
          simp [intoBool, AppConfig.default, Except.isOk, Except.toBool] at hB
        | some v =>
          rw [mergedValue_some hv] at hB
          exact ⟨v, rfl, hB⟩
      · right; right; left
        cases hv : lookupToml t "show_context" with
        | none =>
          rw [mergedValue_none hv] at hC
          simp [intoBool, AppConfig.default, Except.isOk, Except.toBool] at hC
        | some v =>
          rw [mergedValue_some hv] at hC
          exact ⟨v, rfl, hC⟩
      · right; right; right
        cases hv : lookupToml t "markdown" with
        | none =>
          rw [mergedValue_none hv] at hD
          simp [intoBool, AppConfig.default, Except.isOk, Except.toBool] at hD
        | some v =>
          rw [mergedValue_some hv] at hD
          exact ⟨v, rfl, hD⟩
    · intro hbad
      show (load_config_merged t).isOk = false
      rw [load_config_merged_isOk t]
      rcases hbad with ⟨v, hv, hb⟩ | ⟨v, hv, hb⟩ | ⟨v, hv, hb⟩ | ⟨v, hv, hb⟩
      · rw [mergedValue_some hv, hb]
        simp
      · rw [mergedValue_some hv, hb]
        simp
      · rw [mergedValue_some hv, hb]
        simp
      · rw [mergedValue_some hv, hb]
        simp
  · intro c hc
    have hc' : load_config_merged t = .ok c := hc
    obtain ⟨f1, f2, f3, f4⟩ := load_config_merged_fields hc'
    refine ⟨⟨fun hn => ?_, fun v hv => ?_⟩, ⟨fun hn => ?_, fun v hv => ?_⟩,
            ⟨fun hn => ?_, fun v hv => ?_⟩, ⟨fun hn => ?_, fun v hv => ?_⟩⟩
    · rw [mergedValue_none hn] at f1
      injection f1 with h'
      exact h'.symm
    · rw [mergedValue_some hv] at f1
      exact f1
    · rw [mergedValue_none hn] at f2
      injection f2 with h'
      exact h'.symm
    · rw [mergedValue_some hv] at f2
      exact f2
    · rw [mergedValue_none hn] at f3
      injection f3 with h'
      exact h'.symm
    · rw [mergedValue_some hv] at f3
      exact f3
    · rw [mergedValue_none hn] at f4
      injection f4 with h'
      exact h'.symm
    · rw [mergedValue_some hv] at f4
      exact f4

/-- C3 amended at concrete files: the specification's partial file holding
only show_progress true loads with the default model and the lenient
conversion of the overridden boolean, and the banana file fails through
its present non-convertible field. -/
theorem load_config_merge_spec_witness :
    load_config (some [("show_progress", TomlValue.bool true)])
      = .ok ⟨"gpt-4", true, false, false⟩
    ∧ (⟨"gpt-4", true, false, false⟩ : AppConfig).model = "gpt-4"
    ∧ intoBool (TomlValue.bool true) = .ok true
    ∧ (load_config (some [("show_progress", TomlValue.str "banana")])).isOk = false :=
  ⟨rfl,
   ((load_config_merge_spec [("show_progress", TomlValue.bool true)]).2
      ⟨"gpt-4", true, false, false⟩ rfl).1.1 rfl,
   ((load_config_merge_spec [("show_progress", TomlValue.bool true)]).2
      ⟨"gpt-4", true, false, false⟩ rfl).2.1.2 (TomlValue.bool true) rfl,
   ((load_config_merge_spec [("show_progress", TomlValue.str "banana")]).1).mpr
     (Or.inr (Or.inl ⟨TomlValue.str "banana", rfl, rfl⟩))⟩

/-- C4 as stated is false: setValue never assigns the client's in-memory
config, so after setting model to gpt-3.5-turbo the client still carries
the prior model gpt-4. -/
theorem set_config_value_inmemory_counterexample :
    (set_config_value ⟨AppConfig.default, []⟩ none "model" "gpt-3.5-turbo").map
        (fun r => r.1.config.model)
      = .ok "gpt-4"
    ∧ ("gpt-4" : String) ≠ "gpt-3.5-turbo" :=
  ⟨rfl, by decide⟩

/-- C4 amended: setValue of the model key persists the entire merged
structure with the new model over the file, leaving the client value
itself unchanged, and reloading the same directory returns the new model
with every other field unchanged from its prior loaded value. -/
theorem set_config_value_model_roundtrip :
    ∀ (client : GptClient) (file : Option Toml) (v : String) (prior : AppConfig),
      load_config (ensure_config_file file) = .ok prior →
      set_config_value client file "model" v
        = .ok (client, appConfigToToml { prior with model := v })
      ∧ load_config (some (appConfigToToml { prior with model := v }))
        = .ok { prior with model := v }
      ∧ ({ prior with model := v }).show_progress = prior.show_progress
      ∧ ({ prior with model := v }).show_context = prior.show_context
      ∧ ({ prior with model := v }).markdown = prior.markdown := by
  intro client file v prior h
  refine ⟨?_, load_config_appConfigToToml _, rfl, rfl, rfl⟩
  unfold set_config_value
  rw [h]
  rfl

/-- C4 amended at a fresh directory: setting the model and reloading
returns the new model with all other fields at their prior defaults. -/
theorem set_config_value_model_roundtrip_witness :
    set_config_value ⟨AppConfig.default, []⟩ none "model" "gpt-3.5-turbo"
      = .ok (⟨AppConfig.default, []⟩,
          appConfigToToml ⟨"gpt-3.5-turbo", false, false, false⟩) :=
  (set_config_value_model_roundtrip ⟨AppConfig.default, []⟩ none "gpt-3.5-turbo"
    AppConfig.default rfl).1

/-- C5: in every reachable conversation state the transcript is non-empty
with the construction-time System turn first, and both append and a
successful complete only add exactly one message at the end, leaving every
existing turn in place. -/
theorem transcript_invariant :
    ∀ (os : String) (file : Option Toml) (c : GptClient), Reachable os file c →
      (∃ rest, c.messages = system_message os :: rest)
      ∧ (∀ (role : Role) (text : String),
          (c.add_message role text).messages
            = c.messages ++ [⟨role.toString, rustTrim text⟩])
      ∧ ∀ (body : Json) (r : String) (c' : GptClient),
          GptClient.complete body c = .ok (r, c') →
            c'.messages = c.messages ++ [⟨Role.Assistant.toString, rustTrim r⟩] := by
  intro os file c h
  exact ⟨reachable_system_head h, fun _ _ => rfl, fun _ _ _ hc => complete_ok_messages hc⟩

/-- C5 at the freshly constructed client: its transcript is the System
turn followed by nothing. -/
theorem transcript_invariant_witness :
    ∃ rest, (GptClient.mk AppConfig.default [system_message "linux"]).messages
      = system_message "linux" :: rest :=
  (transcript_invariant "linux" none ⟨AppConfig.default, [system_message "linux"]⟩
    (Reachable.init _ rfl)).1

/-- C6: role parsing succeeds for exactly the three strings system, user
and assistant, and fails with Invalid role for every other string,
including the empty string and case variants. -/
theorem role_parsing_exact :
    (Role.from_str "system" = .ok Role.System
      ∧ Role.from_str "user" = .ok Role.User
      ∧ Role.from_str "assistant" = .ok Role.Assistant)
    ∧ ∀ s : String, s ≠ "system" → s ≠ "user" → s ≠ "assistant" →
        Role.from_str s = .error "Invalid role" := by
  refine ⟨⟨rfl, rfl, rfl⟩, fun s h1 h2 h3 => ?_⟩
  simp [Role.from_str, h1, h2, h3]

/-- C6 at the case variant System: parsing fails. -/
theorem role_parsing_exact_witness :
    Role.from_str "System" = .error "Invalid role" :=
  role_parsing_exact.2 "System" (by decide) (by decide) (by decide)

/-- C7 as stated is false: ingesting a transcript trims each content, so
an encoded message list with untrimmed content does not decode back to
itself. -/
theorem decode_encode_counterexample :
    decode_messages
        (GptClient.to_yaml_messages ⟨AppConfig.default, [⟨"user", " hi "⟩]⟩ false)
      = .ok [⟨"user", "hi"⟩]
    ∧ ([⟨"user", "hi"⟩] : List Message) ≠ [⟨"user", " hi "⟩] :=
  ⟨rfl, by decide⟩

/-- C7 amended: for every message list whose roles parse through the role
enumeration and whose contents are already trimmed, which covers every
transcript the conversation state itself produces, decoding the encoding
without exclusions reproduces exactly the same ordered role and content
pairs. -/
theorem decode_encode_roundtrip :
    ∀ client : GptClient,
      (∀ m ∈ client.messages,
        (Role.from_str m.role).isOk = true ∧ rustTrim m.content = m.content) →
      decode_messages (client.to_yaml_messages false) = .ok client.messages := by
  intro client h
  exact decode_messages_id client.messages h

/-- C7 amended at a three-turn canonical transcript: the round trip
reproduces it exactly. -/
theorem decode_encode_roundtrip_witness :
    decode_messages
        (GptClient.to_yaml_messages
          ⟨AppConfig.default, [⟨"system", "a"⟩, ⟨"user", "b"⟩, ⟨"assistant", "c"⟩]⟩ false)
      = .ok [⟨"system", "a"⟩, ⟨"user", "b"⟩, ⟨"assistant", "c"⟩] :=
  decode_encode_roundtrip
    ⟨AppConfig.default, [⟨"system", "a"⟩, ⟨"user", "b"⟩, ⟨"assistant", "c"⟩]⟩ (by decide)

/-- C8: encoding with exclusion omits exactly the turns whose role renders
system up to case, which includes the leading System turn and any others,
keeps the remaining turns as an order-preserving sublist, and encoding
without exclusion is the full sequence unchanged. -/
theorem to_yaml_exclude_system_spec :
    ∀ client : GptClient,
      client.to_yaml_messages false = client.messages
      ∧ List.Sublist (client.to_yaml_messages true) client.messages
      ∧ (∀ m ∈ client.to_yaml_messages true, isSystemTurn m = false)
      ∧ client.to_yaml_messages true
          = client.messages.filter (fun m => ! isSystemTurn m) := by
  intro client
  refine ⟨rfl, List.filter_sublist _, ?_, rfl⟩
  intro m hm
  have hmem := List.mem_filter.mp hm
  have := hmem.2
  simpa [isSystemTurn] using this

/-- C8 at a transcript holding an uppercase System turn and a user turn:
the surviving user turn is not a System turn. -/
theorem to_yaml_exclude_system_spec_witness :
    isSystemTurn ⟨"user", "b"⟩ = false :=
  (to_yaml_exclude_system_spec
      ⟨AppConfig.default, [⟨"System", "a"⟩, ⟨"user", "b"⟩]⟩).2.2.1
    ⟨"user", "b"⟩ (by decide)

/-- C9: ensureFile writes the serialized defaults if and only if no file
exists, never overwrites an existing file, and is idempotent. -/
theorem ensure_config_file_spec :
    ensure_config_file none = some (appConfigToToml AppConfig.default)
    ∧ (∀ contents : Toml, ensure_config_file (some contents) = some contents)
    ∧ ∀ file : Option Toml,
        ensure_config_file (ensure_config_file file) = ensure_config_file file := by
  refine ⟨rfl, fun _ => rfl, fun file => ?_⟩
  cases file <;> rfl

/-- C10: a body that decodes against the success schema with an empty
choices list makes complete abort with the index panic, and a returning
complete requires the parsed choices list to be non-empty. -/
theorem complete_empty_choices_aborts :
    (∀ (body : Json) (client : GptClient) (resp : ChatResponse),
        parse_response body = .ok resp → resp.choices = [] →
        GptClient.complete body client
          = .error "index out of bounds: the len is 0 but the index is 0")
    ∧ ∀ (body : Json) (client : GptClient) (r : String) (c' : GptClient),
        GptClient.complete body client = .ok (r, c') →
        ∃ resp, parse_response body = .ok resp ∧ resp.choices ≠ [] := by
  constructor
  · intro body client resp hp hempty
    rw [complete_parse_ok client hp, hempty]
    rfl
  · intro body client r c' h
    obtain ⟨resp, choice, hp, hh, _, _⟩ := complete_ok_inv h
    refine ⟨resp, hp, fun hempty => ?_⟩
    rw [hempty] at hh
    simp at hh

/-- C10 at a concrete empty-choices success body: complete aborts with the
index panic. -/
theorem complete_empty_choices_aborts_witness :
    GptClient.complete emptyChoicesBody ⟨AppConfig.default, []⟩
      = .error "index out of bounds: the len is 0 but the index is 0" :=
  complete_empty_choices_aborts.1 emptyChoicesBody ⟨AppConfig.default, []⟩
    ⟨"chatcmpl-0", "chat.completion", 1, "gpt-4", ⟨1, 0, 1⟩, []⟩ rfl rfl

end Cgip
